import Mathlib

/-!
# Verification of the NWHL play-by-play converter

A shallow embedding of `nwhl_pbp_scraper.py`.  The script downloads a JSON
game record and reshapes it into three tables (plays, players, teams).  We
embed the pure conversion pipeline: `convert_pbp_dict` (per-play field
extraction, `fillna`, team broadcast, `to_numeric` coercion, multi-key sort),
`pull_player_names` (the per-column left join that also mutates the player
table in place), and the enrichment loop of `main`.

Modelling conventions:
* JSON null, a missing dictionary key, and pandas `NaN` are conflated into
  `PyVal.null` (Python's `dict.get` returns `None` for a missing key, and
  `fillna`/`to_numeric` treat `None` and `NaN` alike).
* All numeric values in this dataset are integers, so numbers are `Int`;
  fractional strings are out of scope of the claims and are treated as
  failing coercion.
* Python exceptions become `Except PyError`; the in-place mutation of the
  player dataframe becomes explicit state passing.
-/

deriving instance DecidableEq for Except

namespace NwhlScraper

/-- A Python/JSON scalar as it flows through the pandas pipeline:
`null` stands for JSON null, a missing key, or pandas NaN; `int` for
(integer) numbers; `str` for strings. -/
inductive PyVal where
  | null : PyVal
  | int : Int → PyVal
  | str : String → PyVal

deriving Repr, DecidableEq

/-- The Python exceptions the conversion code can raise. -/
inductive PyError where
  | attributeError : PyError
  | valueError : PyError
  | indexError : PyError
  | keyError : PyError

deriving Repr, DecidableEq

/-- Whitespace-stripping on the underlying character list (Python
`str.strip()`). -/
def pyStripChars (l : List Char) : List Char :=
  ((l.dropWhile Char.isWhitespace).reverse.dropWhile Char.isWhitespace).reverse

/-- Python `s.strip()`. -/
def pyStrip (s : String) : String := ⟨pyStripChars s.data⟩

/-- Python `s.lower()`. -/
def pyLower (s : String) : String := ⟨s.data.map Char.toLower⟩

/-- Python `s[:n]`. -/
def pyTake (s : String) (n : Nat) : String := ⟨s.data.take n⟩

/-- The numeric value of a list of decimal digits. -/
def digitsToNat (l : List Char) : Nat :=
  l.foldl (fun n c => n * 10 + (c.toNat - 48)) 0

/-- Python `int(s)` on a decimal string: optional surrounding whitespace,
an optional single sign, then at least one digit; anything else raises
`ValueError`, modelled as `none`. -/
def pyInt (s : String) : Option Int :=
  match pyStripChars s.data with
  | '-' :: ds =>
    if ds ≠ [] && ds.all Char.isDigit then some (-(digitsToNat ds : Int)) else none
  | '+' :: ds =>
    if ds ≠ [] && ds.all Char.isDigit then some (digitsToNat ds : Int) else none
  | ds =>
    if ds ≠ [] && ds.all Char.isDigit then some (digitsToNat ds : Int) else none

/-- Substring search on character lists. -/
def listContains : List Char → List Char → Bool
  | s, pat =>
    if pat.isPrefixOf s then true
    else match s with
      | [] => false
      | _ :: t => listContains t pat

/-- Python `sub in s`. -/
def pyContains (s sub : String) : Bool := listContains s.data sub.data

/-- Python `s.split(':')` on the underlying character list. -/
def splitOnColon : List Char → List (List Char)
  | [] => [[]]
  | c :: t =>
    let r := splitOnColon t
    if c = ':' then [] :: r
    else match r with
      | [] => [[c]]
      | h :: rt => (c :: h) :: rt

/-- Python `s.split(':')`. -/
def pySplitColon (s : String) : List String :=
  (splitOnColon s.data).map (fun l => ⟨l⟩)

/-- The `play_summary` sub-dictionary of one play.  The fields read with
`.get(...)` in the source are `PyVal` (`null` when missing); `details` is
read with direct indexing (`play['play_summary']['details']`), so a missing
key raises `KeyError`, which we model with `Option`. -/
structure PlaySummary where
  scorer_id : PyVal
  assist_1_id : PyVal
  assist_2_id : PyVal
  loser_id : PyVal
  x_coord : PyVal
  y_coord : PyVal
  details : Option String

deriving Repr, DecidableEq

/-- One entry of a play's `play_actions` list; all four fields are read
with `.get(...)`. -/
structure PlayAction where
  away_team_goalie : PyVal
  home_team_goalie : PyVal
  away_team_score : PyVal
  home_team_score : PyVal

deriving Repr, DecidableEq

/-- One entry of the raw record's `plays` list.  `clock_time_string` is a
string or JSON null; `special_tags` is a list of strings or JSON null. -/
structure Play where
  play_index : Int
  created_at : String
  clock_time_string : Option String
  special_tags : Option (List String)
  play_type : String
  game_id : Int
  play_by_play_string : String
  time_interval : Int
  primary_player_id : PyVal
  team_id : Int
  play_summary : PlaySummary
  play_actions : List PlayAction

deriving Repr, DecidableEq

/-- One entry of `roster_player`: the columns of the raw player table the
script uses. -/
structure Player where
  id : Int
  first_name : String
  last_name : String

deriving Repr, DecidableEq

/-- One entry of `team_instance`. -/
structure Team where
  team_id : Int
  name : String

deriving Repr, DecidableEq

/-- The decoded JSON record, with the three top-level collections the
script reads. -/
structure PbpDict where
  plays : List Play
  roster_player : List Player
  team_instance : List Team

deriving Repr, DecidableEq

/-- Python `play['play_summary'].get(key, d)`: a missing value is replaced
by the integer default `d`. -/
def pyGetD (v : PyVal) (d : Int) : PyVal :=
  match v with
  | .null => .int d
  | v => v

/-- Lines 71 and 88 of the source:
`play['special_tags'] and play['special_tags'][0] == "ends_time_interval"`.
`None` and the empty list are falsy, so `and` short-circuits and the first
element is only inspected on a non-empty list. -/
def isPeriodEnd (p : Play) : Bool :=
  match p.special_tags with
  | some (t :: _) => t == "ends_time_interval"
  | _ => false

/-- Lines 76–82: `try: ... play['clock_time_string'].split(':') ... except
AttributeError: 0`.  Only a `None` clock raises `AttributeError` (caught,
yielding 0); `int()` on a non-numeric component raises `ValueError` and a
missing second component raises `IndexError`, neither of which is caught. -/
def clockElapsed (clock : Option String) : Except PyError Int :=
  match clock with
  | none => .ok 0
  | some s =>
    let time := pySplitColon s
    match pyInt (time.headD "") with
    | none => .error .valueError
    | some m =>
      match time[1]? with
      | none => .error .indexError
      | some s1 =>
        match pyInt s1 with
        | none => .error .valueError
        | some sec => .ok (m * 60 + sec)

/-- Lines 73–82: the non-period-end part of the elapsed-seconds
computation (`elif play['play_type'] == 'Shootout': 0` then the clock
parse). -/
def elapsedFallthrough (p : Play) : Except PyError Int :=
  if p.play_type == "Shootout" then .ok 0 else clockElapsed p.clock_time_string

/-- Lines 71–82: seconds elapsed in the period. -/
def computeElapsed (p : Play) : Except PyError Int :=
  if isPeriodEnd p then .ok 1200 else elapsedFallthrough p

/-- Lines 88–91: the event column. -/
def eventType (p : Play) : String :=
  if isPeriodEnd p then "Period End" else p.play_type

/-- Lines 94–99: the event description; for a penalty the `details` field
is read with direct indexing, so a missing key raises `KeyError`. -/
def eventDescription (p : Play) : Except PyError String :=
  if pyLower (pyStrip p.play_by_play_string) == "penalty" then
    match p.play_summary.details with
    | none => .error .keyError
    | some d => .ok (pyStrip p.play_by_play_string ++ " " ++ d)
  else .ok (pyStrip p.play_by_play_string)

/-- Lines 106–113: the three participant columns, branching on whether the
raw description contains the substring `"Goal"`. -/
def participants (p : Play) : PyVal × PyVal × PyVal :=
  if pyContains p.play_by_play_string "Goal" then
    (p.play_summary.scorer_id, p.play_summary.assist_1_id, p.play_summary.assist_2_id)
  else
    (p.primary_player_id, p.play_summary.loser_id, pyGetD p.play_summary.assist_2_id 0)

/-- One row of the play table right after the extraction loop (before
`fillna`, team broadcast and `to_numeric`). -/
structure EventRow where
  event_index : Int
  date : String
  time : PyVal
  seconds_elapsed : Int
  game_id : Int
  event : String
  event_description : String
  period : Int
  event_p1 : PyVal
  event_p2 : PyVal
  event_p3 : PyVal
  event_team : Int
  x_coord : PyVal
  y_coord : PyVal
  away_goalie : PyVal
  home_goalie : PyVal
  away_score : PyVal
  home_score : PyVal

deriving Repr, DecidableEq

/-- Lines 59–121: extraction of one play into one row, in source order, so
the first exception raised is the one reported.  `play['play_actions'][0]`
raises `IndexError` on an empty list. -/
def parsePlay (p : Play) : Except PyError EventRow :=
  match computeElapsed p with
  | .error e => .error e
  | .ok secs =>
  match eventDescription p with
  | .error e => .error e
  | .ok descr =>
  match p.play_actions.head? with
  | none => .error .indexError
  | some act =>
  let ps := participants p
  Except.ok {
    event_index := p.play_index
    date := pyTake p.created_at 10
    time := match p.clock_time_string with | none => PyVal.null | some s => PyVal.str s
    seconds_elapsed := secs
    game_id := p.game_id
    event := eventType p
    event_description := descr
    period := p.time_interval
    event_p1 := ps.1
    event_p2 := ps.2.1
    event_p3 := ps.2.2
    event_team := p.team_id
    x_coord := p.play_summary.x_coord
    y_coord := p.play_summary.y_coord
    away_goalie := act.away_team_goalie
    home_goalie := act.home_team_goalie
    away_score := act.away_team_score
    home_score := act.home_team_score }

/-- The extraction loop over all plays: the first exception aborts the
whole conversion. -/
def parsePlays : List Play → Except PyError (List EventRow)
  | [] => .ok []
  | p :: ps =>
    match parsePlay p with
    | .error e => .error e
    | .ok r =>
      match parsePlays ps with
      | .error e => .error e
      | .ok rs => .ok (r :: rs)

/-- `fillna(0)` on one cell. -/
def fillPy (v : PyVal) : PyVal :=
  match v with
  | .null => .int 0
  | v => v

/-- Line 133: `pbp_df.fillna(0)` applied to the nullable columns of a
row. -/
def fillnaRow (r : EventRow) : EventRow :=
  { r with
    time := fillPy r.time
    event_p1 := fillPy r.event_p1
    event_p2 := fillPy r.event_p2
    event_p3 := fillPy r.event_p3
    x_coord := fillPy r.x_coord
    y_coord := fillPy r.y_coord
    away_goalie := fillPy r.away_goalie
    home_goalie := fillPy r.home_goalie
    away_score := fillPy r.away_score
    home_score := fillPy r.home_score }

/-- A play row after the home/away team columns are broadcast onto it. -/
structure FinalRow extends EventRow where
  home_team : String
  home_team_id : Int
  away_team : String
  away_team_id : Int

deriving Repr, DecidableEq

/-- Lines 136–140: broadcast `team_df.loc[0]`'s and `team_df.loc[1]`'s
name and id onto every row; `.loc` on a missing label raises `KeyError`. -/
def addTeams (rows : List EventRow) (teams : List Team) :
    Except PyError (List FinalRow) :=
  match teams[0]?, teams[1]? with
  | some t0, some t1 =>
    .ok (rows.map fun r =>
      { toEventRow := r
        home_team := t0.name
        home_team_id := t0.team_id
        away_team := t1.name
        away_team_id := t1.team_id })
  | _, _ => .error .keyError

/-- `pd.to_numeric(col, errors='coerce')` on one cell: numbers are kept,
numeric-looking strings are parsed, anything unparsable becomes NaN
(`null`) instead of raising. -/
def toNumeric (v : PyVal) : PyVal :=
  match v with
  | .null => .null
  | .int i => .int i
  | .str s => match pyInt s with | some i => .int i | none => .null

/-- Lines 143–147: coerce the five player-identifier columns to numbers. -/
def coerceIds (r : FinalRow) : FinalRow :=
  { r with
    event_p1 := toNumeric r.event_p1
    event_p2 := toNumeric r.event_p2
    event_p3 := toNumeric r.event_p3
    away_goalie := toNumeric r.away_goalie
    home_goalie := toNumeric r.home_goalie }

/-- The comparison used by line 149's
`sort_values(by=['period', 'seconds_elapsed', 'event_index'])`:
lexicographic order on the key triple. -/
def rowLE (a b : FinalRow) : Bool :=
  decide (a.period < b.period) ||
  (decide (a.period = b.period) &&
    (decide (a.seconds_elapsed < b.seconds_elapsed) ||
     (decide (a.seconds_elapsed = b.seconds_elapsed) &&
      decide (a.event_index ≤ b.event_index))))

/-- The sort comparison as a decidable relation. -/
abbrev rowLEProp (a b : FinalRow) : Prop := rowLE a b = true

/-- Line 149: the multi-key sort.  A pandas multi-column `sort_values`
uses `numpy.lexsort`, which is stable; every stable sort under the same
comparison computes the same list, and an insertion sort is used here so
that the model stays executable. -/
def sortRows (rows : List FinalRow) : List FinalRow :=
  rows.insertionSort rowLEProp

/-- The player table together with the flag recording whether
`pull_player_names` has already added its derived `full_name` column. -/
structure PlayerTable where
  rows : List Player
  hasFullName : Bool

deriving Repr, DecidableEq

/-- Line 49: `player_df = pd.DataFrame.from_dict(pbp_dict['roster_player'])`
— the raw player table as decoded from the source. -/
def rawPlayerTable (ps : List Player) : PlayerTable := ⟨ps, false⟩

/-- The column names of the player table as it would be written to disk. -/
def playerTableColumns (t : PlayerTable) : List String :=
  ["id", "first_name", "last_name"] ++ (if t.hasFullName then ["full_name"] else [])

/-- Line 172: the derived full name, trimmed first name, a space, trimmed
last name. -/
def full_name (p : Player) : String :=
  pyStrip p.first_name ++ " " ++ pyStrip p.last_name

/-- The plays pipeline up to (and excluding) the final sort: extraction
loop, `fillna(0)`, team broadcast, `to_numeric` coercion. -/
def preSortRows (d : PbpDict) : Except PyError (List FinalRow) :=
  match parsePlays d.plays with
  | .error e => .error e
  | .ok rows =>
    match addTeams (rows.map fillnaRow) d.team_instance with
    | .error e => .error e
    | .ok withTeams => .ok (withTeams.map coerceIds)

/-- Lines 33–153: the whole `convert_pbp_dict`, returning the sorted play
table, the (raw) player table and the team table. -/
def convert_pbp_dict (d : PbpDict) :
    Except PyError (List FinalRow × PlayerTable × List Team) :=
  match preSortRows d with
  | .error e => .error e
  | .ok pre => .ok (sortRows pre, rawPlayerTable d.roster_player, d.team_instance)

/-- The full names of the players matching one key cell: a pandas merge on
`id_column == id` matches a numeric cell against every player with that id
and matches nothing for NaN (or non-numeric) cells. -/
def matchedNames (ptable : PlayerTable) (v : PyVal) : List String :=
  match v with
  | .int i => (ptable.rows.filter (fun p => p.id == i)).map full_name
  | _ => []

/-- Lines 155–180: `pull_player_names`.  An enriched play row is the
`FinalRow` plus the name columns appended so far.  The left merge emits one
output row per matching player and a single null-named row when nothing
matches; the in-place `player_df['full_name'] = ...` mutation is returned
as the updated player table. -/
def pull_player_names (prev : List (FinalRow × List (Option String)))
    (ptable : PlayerTable) (getId : FinalRow → PyVal) :
    List (FinalRow × List (Option String)) × PlayerTable :=
  (prev.flatMap (fun rc =>
    match matchedNames ptable (getId rc.1) with
    | [] => [(rc.1, rc.2 ++ [none])]
    | ns => ns.map (fun n => (rc.1, rc.2 ++ [some n]))),
   { ptable with hasFullName := true })

/-- Line 193: the five identifier columns that get a name column. -/
def player_id_columns : List (FinalRow → PyVal) :=
  [fun r => r.event_p1, fun r => r.event_p2, fun r => r.event_p3,
   fun r => r.away_goalie, fun r => r.home_goalie]

/-- Lines 195–196: the enrichment loop of `main`, threading the play rows
and the (mutated) player table through the five joins. -/
def enrichAll (rows : List FinalRow) (ptable : PlayerTable) :
    List (FinalRow × List (Option String)) × PlayerTable :=
  player_id_columns.foldl
    (fun acc col => pull_player_names acc.1 acc.2 col)
    (rows.map (fun r => (r, [])), ptable)

/-- The `event_index` column of a broadcast row (the inherited field as a
plain function, for mapping over lists). -/
def rowIndex (r : FinalRow) : Int := r.event_index

/-- A play summary with no optional field present. -/
def baseSummary : PlaySummary :=
  { scorer_id := .null, assist_1_id := .null, assist_2_id := .null,
    loser_id := .null, x_coord := .null, y_coord := .null, details := none }

/-- A concrete first action entry. -/
def actA : PlayAction :=
  { away_team_goalie := .int 30, home_team_goalie := .int 31,
    away_team_score := .int 0, home_team_score := .int 1 }

/-- A concrete goal play: description contains `"Goal"`. -/
def playGoal : Play :=
  { play_index := 2, created_at := "2020-02-08T19:05:00",
    clock_time_string := some "12:00", special_tags := none,
    play_type := "Goal", game_id := 18507472,
    play_by_play_string := "Goal scored", time_interval := 1,
    primary_player_id := .int 99, team_id := 7,
    play_summary := { baseSummary with
      scorer_id := .int 20
      assist_1_id := .int 21
      x_coord := .int 5
      y_coord := .int 6 },
    play_actions := [actA] }

/-- A concrete faceoff play: description does not contain `"Goal"`. -/
def playFace : Play :=
  { play_index := 1, created_at := "2020-02-08T19:01:00",
    clock_time_string := some "05:23", special_tags := none,
    play_type := "Faceoff", game_id := 18507472,
    play_by_play_string := "Faceoff won", time_interval := 1,
    primary_player_id := .int 10, team_id := 7,
    play_summary := { baseSummary with loser_id := .int 11 },
    play_actions := [actA] }

/-- A period-end play: first special tag is `"ends_time_interval"`. -/
def playPeriodEnd : Play :=
  { playFace with
    play_index := 3
    special_tags := some ["ends_time_interval"]
    clock_time_string := some "03:10" }

/-- A shootout play with a non-empty clock. -/
def playShootout : Play :=
  { playFace with
    play_index := 4
    play_type := "Shootout"
    clock_time_string := some "04:56" }

/-- A play whose clock is JSON null. -/
def playNullClock : Play :=
  { playFace with play_index := 5, clock_time_string := none }

/-- A play whose clock string has no digits and no colon. -/
def playBadClock : Play :=
  { playFace with play_index := 6, clock_time_string := some "abc" }

/-- A play whose clock string has a numeric value but no colon. -/
def playNoColon : Play :=
  { playFace with play_index := 7, clock_time_string := some "1234" }

/-- A play whose clock string has a non-numeric seconds component. -/
def playBadSecs : Play :=
  { playFace with play_index := 8, clock_time_string := some "12:xy" }

/-- A penalty play whose summary lacks the `details` key. -/
def playPenaltyNoDetails : Play :=
  { playFace with play_index := 9, play_by_play_string := " Penalty " }

/-- A play with an empty `play_actions` list. -/
def playNoActions : Play :=
  { playFace with play_index := 10, play_actions := [] }

/-- A play whose `special_tags` is the empty list. -/
def playEmptyTags : Play :=
  { playFace with play_index := 11, special_tags := some [] }

/-- Concrete home team (row 0 of the team table). -/
def teamHome : Team := ⟨100, "Pride"⟩

/-- Concrete away team (row 1 of the team table). -/
def teamAway : Team := ⟨200, "Whale"⟩

/-- Concrete roster. -/
def rosterAB : List Player :=
  [⟨20, " Jane ", " Doe "⟩, ⟨10, "Mia", "Lee"⟩]

/-- A concrete two-play game record (a goal after a faceoff). -/
def dictTwoPlays : PbpDict :=
  { plays := [playGoal, playFace], roster_player := rosterAB,
    team_instance := [teamHome, teamAway] }

/-- A concrete record with no plays (enough to run the pipeline end to
end). -/
def dictNoPlays : PbpDict :=
  { plays := [], roster_player := [⟨20, " Jane ", " Doe "⟩],
    team_instance := [teamHome, teamAway] }

/-- The row produced for `playGoal` (participants from scorer/assists). -/
def rowGoal : EventRow :=
  { event_index := 2, date := "2020-02-08", time := .str "12:00",
    seconds_elapsed := 720, game_id := 18507472, event := "Goal",
    event_description := "Goal scored", period := 1,
    event_p1 := .int 20, event_p2 := .int 21, event_p3 := .null,
    event_team := 7, x_coord := .int 5, y_coord := .int 6,
    away_goalie := .int 30, home_goalie := .int 31,
    away_score := .int 0, home_score := .int 1 }

/-- The row produced for `playFace` (participants from primary/loser). -/
def rowFace : EventRow :=
  { event_index := 1, date := "2020-02-08", time := .str "05:23",
    seconds_elapsed := 323, game_id := 18507472, event := "Faceoff",
    event_description := "Faceoff won", period := 1,
    event_p1 := .int 10, event_p2 := .int 11, event_p3 := .int 0,
    event_team := 7, x_coord := .null, y_coord := .null,
    away_goalie := .int 30, home_goalie := .int 31,
    away_score := .int 0, home_score := .int 1 }

/-- The row produced for `playPeriodEnd`. -/
def rowPE : EventRow :=
  { rowFace with
    event_index := 3
    time := .str "03:10"
    seconds_elapsed := 1200
    event := "Period End" }

/-- The row produced for `playShootout`. -/
def rowShootout : EventRow :=
  { rowFace with
    event_index := 4
    time := .str "04:56"
    seconds_elapsed := 0
    event := "Shootout" }

/-- `rowGoal` after `fillna` and the team broadcast for
`[teamHome, teamAway]`. -/
def finGoal : FinalRow :=
  { toEventRow := fillnaRow rowGoal, home_team := "Pride", home_team_id := 100,
    away_team := "Whale", away_team_id := 200 }

/-- `rowFace` after `fillna` and the team broadcast. -/
def finFace : FinalRow :=
  { toEventRow := fillnaRow rowFace, home_team := "Pride", home_team_id := 100,
    away_team := "Whale", away_team_id := 200 }

/-- The pre-sort play table of `dictTwoPlays` (source order: goal first). -/
def preTwoPlays : List FinalRow := [finGoal, finFace]

/-- The sorted play table of `dictTwoPlays` (faceoff at 323 s before goal
at 720 s). -/
def sortedTwoPlays : List FinalRow := [finFace, finGoal]

/-- A goal play whose summary has no scorer/assist fields. -/
def playGoalNull : Play :=
  { playGoal with play_summary := baseSummary }

/-- A faceoff play whose summary has no loser field. -/
def playFaceNull : Play :=
  { playFace with play_summary := baseSummary }

/-- The row produced for `playGoalNull`. -/
def rowGoalNull : EventRow :=
  { rowGoal with
    event_p1 := .null
    event_p2 := .null
    event_p3 := .null
    x_coord := .null
    y_coord := .null }

/-- The row produced for `playFaceNull`. -/
def rowFaceNull : EventRow :=
  { rowFace with event_p2 := .null }

/-- Lines 188–211: the data flow of `main` for the player table.  The
table written to `<gameId>_player_df.txt` is `player_df` **after** the
enrichment loop has run (and mutated it in place). -/
def mainWrittenPlayerTable (d : PbpDict) : Except PyError PlayerTable :=
  match convert_pbp_dict d with
  | .error e => .error e
  | .ok (pbp, ptable, _) => .ok (enrichAll pbp ptable).2

/-! ## Lemmas and claims -/

/-- A successful `parsePlay` fixes the computed fields of the row. -/
lemma parsePlay_ok_spec (p : Play) (row : EventRow) (h : parsePlay p = .ok row) :
    computeElapsed p = .ok row.seconds_elapsed ∧
    row.event = eventType p ∧
    row.event_p1 = (participants p).1 ∧
    row.event_p2 = (participants p).2.1 ∧
    row.event_p3 = (participants p).2.2 := by
  unfold parsePlay at h
  cases hc : computeElapsed p with
  | error e => rw [hc] at h; exact absurd h (by simp)
  | ok secs =>
    rw [hc] at h
    cases hd : eventDescription p with
    | error e => rw [hd] at h; exact absurd h (by simp)
    | ok descr =>
      rw [hd] at h
      cases ha : p.play_actions.head? with
      | none => rw [ha] at h; exact absurd h (by simp)
      | some act =>
        rw [ha] at h
        have hrow := Except.ok.inj h
        subst hrow
        exact ⟨rfl, rfl, rfl, rfl, rfl⟩

lemma rowLE_refl (a : FinalRow) : rowLE a a = true := by
  simp [rowLE]

lemma rowLE_total (a b : FinalRow) : rowLE a b || rowLE b a := by
  simp only [rowLE]
  by_cases h1 : a.period < b.period <;>
  by_cases h2 : a.seconds_elapsed < b.seconds_elapsed <;>
  simp_all <;> omega

lemma rowLE_trans (a b c : FinalRow) :
    rowLE a b → rowLE b c → rowLE a c := by
  simp only [rowLE, Bool.or_eq_true, Bool.and_eq_true, decide_eq_true_eq]
  intro h1 h2
  rcases h1 with h1 | ⟨h1, h1' | ⟨h1', h1''⟩⟩ <;>
  rcases h2 with h2 | ⟨h2, h2' | ⟨h2', h2''⟩⟩ <;>
  omega

lemma rowLE_antisymm_idx (a b : FinalRow) :
    rowLE a b → rowLE b a → a.event_index = b.event_index := by
  simp only [rowLE, Bool.or_eq_true, Bool.and_eq_true, decide_eq_true_eq]
  intro h1 h2
  rcases h1 with h1 | ⟨h1, h1' | ⟨h1', h1''⟩⟩ <;>
  rcases h2 with h2 | ⟨h2, h2' | ⟨h2', h2''⟩⟩ <;>
  omega

/-- Two sorted permutations of each other with pairwise-distinct
`event_index` values are equal: the sort order is total. -/
lemma sorted_perm_nodup_eq :
    ∀ (l₁ l₂ : List FinalRow), l₁.Perm l₂ →
      l₁.Pairwise (fun a b => rowLE a b = true) →
      l₂.Pairwise (fun a b => rowLE a b = true) →
      (l₁.map rowIndex).Nodup → l₁ = l₂
  | [], l₂, hp, _, _, _ => (hp.symm.eq_nil).symm
  | a :: t₁, l₂, hp, hs₁, hs₂, hn => by
    cases l₂ with
    | nil => exact absurd hp.length_eq (by simp)
    | cons b t₂ =>
      have hb1 : b ∈ a :: t₁ := hp.mem_iff.mpr (List.mem_cons_self b t₂)
      have ha2 : a ∈ b :: t₂ := hp.mem_iff.mp (List.mem_cons_self a t₁)
      have hab : rowLE a b = true := by
        rcases List.mem_cons.mp hb1 with h | h
        · rw [h]; exact rowLE_refl a
        · exact (List.pairwise_cons.mp hs₁).1 b h
      have hba : rowLE b a = true := by
        rcases List.mem_cons.mp ha2 with h | h
        · rw [h]; exact rowLE_refl b
        · exact (List.pairwise_cons.mp hs₂).1 a h
      have hidx := rowLE_antisymm_idx a b hab hba
      have hb : b = a := by
        rcases List.mem_cons.mp hb1 with h | h
        · exact h
        · exfalso
          have hmem : a.event_index ∈ t₁.map rowIndex := by
            rw [hidx]; exact List.mem_map_of_mem _ h
          exact (List.nodup_cons.mp (by simpa using hn)).1 hmem
      subst hb
      have ht := sorted_perm_nodup_eq t₁ t₂ hp.cons_inv
        (List.pairwise_cons.mp hs₁).2 (List.pairwise_cons.mp hs₂).2
        (List.nodup_cons.mp (by simpa using hn)).2
      rw [ht]

/-- Claim C1: for every produced row, if the play's description contains
the substring `"Goal"` then the participant columns are the summary's
scorer/assist-1/assist-2 ids; otherwise they are the play's primary player
id, the summary's loser id, and the summary's assist-2 id defaulted to 0
when absent.  The two field families are not mixed: each branch's columns
are extensionally equal to exactly its own source fields. -/
theorem claim1_participant_policy (p : Play) (row : EventRow)
    (h : parsePlay p = .ok row) :
    (pyContains p.play_by_play_string "Goal" = true →
      row.event_p1 = p.play_summary.scorer_id ∧
      row.event_p2 = p.play_summary.assist_1_id ∧
      row.event_p3 = p.play_summary.assist_2_id) ∧
    (pyContains p.play_by_play_string "Goal" = false →
      row.event_p1 = p.primary_player_id ∧
      row.event_p2 = p.play_summary.loser_id ∧
      row.event_p3 = pyGetD p.play_summary.assist_2_id 0) := by
  obtain ⟨-, -, h1, h2, h3⟩ := parsePlay_ok_spec p row h
  constructor
  · intro hg
    rw [h1, h2, h3]
    simp [participants, hg]
  · intro hg
    rw [h1, h2, h3]
    simp [participants, hg]

/-- Claim C1 witness: both branches at concrete plays. -/
theorem claim1_witness :
    (rowGoal.event_p1 = playGoal.play_summary.scorer_id ∧
     rowGoal.event_p2 = playGoal.play_summary.assist_1_id ∧
     rowGoal.event_p3 = playGoal.play_summary.assist_2_id) ∧
    (rowFace.event_p1 = playFace.primary_player_id ∧
     rowFace.event_p2 = playFace.play_summary.loser_id ∧
     rowFace.event_p3 = pyGetD playFace.play_summary.assist_2_id 0) :=
  ⟨(claim1_participant_policy playGoal rowGoal (by decide)).1 (by decide),
   (claim1_participant_policy playFace rowFace (by decide)).2 (by decide)⟩

/-- Claim C2: for every play whose `special_tags` is non-empty with first
element `"ends_time_interval"`, the produced row has event `"Period End"`
and 1200 elapsed seconds, whatever the clock string and play type are. -/
theorem claim2_period_end_row (p : Play) (t : String) (rest : List String)
    (row : EventRow) (htags : p.special_tags = some (t :: rest))
    (ht : t = "ends_time_interval") (h : parsePlay p = .ok row) :
    row.event = "Period End" ∧ row.seconds_elapsed = 1200 := by
  have hpe : isPeriodEnd p = true := by simp [isPeriodEnd, htags, ht]
  obtain ⟨hs, he, -, -, -⟩ := parsePlay_ok_spec p row h
  refine ⟨by rw [he]; simp [eventType, hpe], ?_⟩
  have h1200 : computeElapsed p = .ok 1200 := by simp [computeElapsed, hpe]
  exact Except.ok.inj (hs.symm.trans h1200)

/-- Claim C2 witness: a period-end play with clock `"03:10"` and type
`"Faceoff"`. -/
theorem claim2_witness :
    rowPE.event = "Period End" ∧ rowPE.seconds_elapsed = 1200 :=
  claim2_period_end_row playPeriodEnd "ends_time_interval" [] rowPE
    (by decide) rfl (by decide)

/-- Claim C3: for every produced row of a play without the period-end tag,
a `"Shootout"` play type forces 0 elapsed seconds even with a non-empty
clock; otherwise a clock that splits on `:` into two `int()`-parsable
components gives minutes*60 + seconds. -/
theorem claim3_shootout_and_clock (p : Play) (row : EventRow)
    (hpe : isPeriodEnd p = false) (h : parsePlay p = .ok row) :
    (p.play_type = "Shootout" → row.seconds_elapsed = 0) ∧
    (p.play_type ≠ "Shootout" →
      ∀ (s mstr sstr : String) (m sec : Int), p.clock_time_string = some s →
        pySplitColon s = [mstr, sstr] → pyInt mstr = some m →
        pyInt sstr = some sec → row.seconds_elapsed = m * 60 + sec) := by
  obtain ⟨hs, -, -, -, -⟩ := parsePlay_ok_spec p row h
  constructor
  · intro hsh
    have h0 : computeElapsed p = .ok 0 := by
      simp [computeElapsed, hpe, elapsedFallthrough, hsh]
    exact Except.ok.inj (hs.symm.trans h0)
  · intro hsh s mstr sstr m sec hc hsplit hm hsec
    have hv : computeElapsed p = .ok (m * 60 + sec) := by
      simp [computeElapsed, hpe, elapsedFallthrough, hsh, clockElapsed, hc,
        hsplit, hm, hsec]
    exact Except.ok.inj (hs.symm.trans hv)

/-- Claim C3 witness: a shootout play with clock `"04:56"` gets 0; a
faceoff with clock `"05:23"` gets 323. -/
theorem claim3_witness :
    rowShootout.seconds_elapsed = 0 ∧
    rowFace.seconds_elapsed = 5 * 60 + 23 :=
  ⟨(claim3_shootout_and_clock playShootout rowShootout (by decide)
      (by decide)).1 rfl,
   (claim3_shootout_and_clock playFace rowFace (by decide) (by decide)).2
     (by decide) "05:23" "05" "23" 5 23 rfl (by decide) (by decide) (by decide)⟩

/-- Claim C10: for every play whose `special_tags` is JSON null or the
empty list, the truthiness guard short-circuits: the period-end condition
is false (no exception is modelled because the first element is never
inspected), the event column falls through to the raw play type, and
elapsed seconds falls through to the Shootout/clock-parse branches. -/
theorem claim10_falsy_tags (p : Play)
    (h : p.special_tags = none ∨ p.special_tags = some []) :
    isPeriodEnd p = false ∧ eventType p = p.play_type ∧
    computeElapsed p = elapsedFallthrough p := by
  have hpe : isPeriodEnd p = false := by
    rcases h with h | h <;> simp [isPeriodEnd, h]
  exact ⟨hpe, by simp [eventType, hpe], by simp [computeElapsed, hpe]⟩

/-- Claim C10 witness: a play with `special_tags = []`. -/
theorem claim10_witness :
    isPeriodEnd playEmptyTags = false ∧
    eventType playEmptyTags = playEmptyTags.play_type ∧
    computeElapsed playEmptyTags = elapsedFallthrough playEmptyTags :=
  claim10_falsy_tags playEmptyTags (Or.inr (by decide))

/-- An error in the elapsed-seconds computation is the first raised and
aborts the play's row. -/
lemma parsePlay_elapsed_error (p : Play) (e : PyError)
    (h : computeElapsed p = .error e) : parsePlay p = .error e := by
  unfold parsePlay
  rw [h]

/-- Claim C4 counterexample: a play with the non-null clock string
`"abc"` (no colon, non-numeric) raises `ValueError` instead of producing a
row with 0 elapsed seconds — the `except AttributeError` clause does not
catch it. -/
theorem claim4_counterexample :
    parsePlay playBadClock = Except.error PyError.valueError := by decide

/-- Claim C4 amended: for a play without the period-end tag and not of
type `"Shootout"`, only a JSON-null clock is swallowed (giving 0 elapsed
seconds); a clock string whose first `:`-component fails `int()` raises
`ValueError`, one with no colon raises `IndexError`, and one whose second
component fails `int()` raises `ValueError` — in each case no row is
produced. -/
theorem claim4_amended_clock_handling (p : Play)
    (hpe : isPeriodEnd p = false) (hns : p.play_type ≠ "Shootout") :
    (p.clock_time_string = none → computeElapsed p = .ok 0) ∧
    (∀ s : String, p.clock_time_string = some s →
      pyInt ((pySplitColon s).headD "") = none →
      computeElapsed p = .error .valueError ∧
        ∀ row, parsePlay p ≠ .ok row) ∧
    (∀ s : String, p.clock_time_string = some s →
      (pySplitColon s).length = 1 →
      (∃ m, pyInt ((pySplitColon s).headD "") = some m) →
      computeElapsed p = .error .indexError ∧
        ∀ row, parsePlay p ≠ .ok row) ∧
    (∀ s mstr sstr : String, p.clock_time_string = some s →
      pySplitColon s = [mstr, sstr] →
      (∃ m, pyInt mstr = some m) → pyInt sstr = none →
      computeElapsed p = .error .valueError ∧
        ∀ row, parsePlay p ≠ .ok row) := by
  refine ⟨?_, ?_, ?_, ?_⟩
  · intro hc
    simp [computeElapsed, hpe, elapsedFallthrough, hns, clockElapsed, hc]
  · intro s hc hfail
    have hfail' : pyInt ((pySplitColon s).head?.getD "") = none := by
      simpa using hfail
    have herr : computeElapsed p = .error .valueError := by
      simp [computeElapsed, hpe, elapsedFallthrough, hns, clockElapsed, hc, hfail']
    exact ⟨herr, fun row hrow => by
      rw [parsePlay_elapsed_error p _ herr] at hrow; exact absurd hrow (by simp)⟩
  · intro s hc hlen ⟨m, hm⟩
    obtain ⟨x, hx⟩ := List.length_eq_one.mp hlen
    have hnone : (pySplitColon s)[1]? = none := by rw [hx]; rfl
    have hm' : pyInt ((pySplitColon s).head?.getD "") = some m := by
      simpa using hm
    have herr : computeElapsed p = .error .indexError := by
      simp [computeElapsed, hpe, elapsedFallthrough, hns, clockElapsed, hc,
        hm', hnone]
    exact ⟨herr, fun row hrow => by
      rw [parsePlay_elapsed_error p _ herr] at hrow; exact absurd hrow (by simp)⟩
  · intro s mstr sstr hc hsplit ⟨m, hm⟩ hsec
    have herr : computeElapsed p = .error .valueError := by
      simp [computeElapsed, hpe, elapsedFallthrough, hns, clockElapsed, hc,
        hsplit, hm, hsec]
    exact ⟨herr, fun row hrow => by
      rw [parsePlay_elapsed_error p _ herr] at hrow; exact absurd hrow (by simp)⟩

/-- Claim C4 witness: null clock → 0; `"abc"` → `ValueError`; `"1234"` →
`IndexError`; `"12:xy"` → `ValueError`. -/
theorem claim4_witness :
    computeElapsed playNullClock = .ok 0 ∧
    computeElapsed playBadClock = .error .valueError ∧
    computeElapsed playNoColon = .error .indexError ∧
    computeElapsed playBadSecs = .error .valueError :=
  ⟨(claim4_amended_clock_handling playNullClock (by decide) (by decide)).1 rfl,
   ((claim4_amended_clock_handling playBadClock (by decide) (by decide)).2.1
     "abc" rfl (by decide)).1,
   ((claim4_amended_clock_handling playNoColon (by decide) (by decide)).2.2.1
     "1234" rfl (by decide) ⟨1234, by decide⟩).1,
   ((claim4_amended_clock_handling playBadSecs (by decide) (by decide)).2.2.2
     "12:xy" "12" "xy" rfl (by decide) ⟨12, by decide⟩ (by decide)).1⟩

/-- Claim C5 counterexample: a play with an empty `play_actions` list
raises `IndexError` at `play['play_actions'][0]` and aborts the run —
the defect is not resolved to a sentinel. -/
theorem claim5_counterexample :
    parsePlay playNoActions = Except.error PyError.indexError := by decide

/-- Claim C5 amended: summary fields read with `.get` (scorer, assists,
loser) are resolved to null and become 0 after `fillna`, and failed
numeric coercion yields NaN without raising; but an unparsable non-null
clock string, a missing penalty `details` field, and an empty action list
each raise an uncaught exception that aborts the conversion. -/
theorem claim5_amended_soft_and_hard_failures :
    (∀ p row, parsePlay p = .ok row →
      pyContains p.play_by_play_string "Goal" = true →
      p.play_summary.scorer_id = PyVal.null →
      (fillnaRow row).event_p1 = PyVal.int 0) ∧
    (∀ p row, parsePlay p = .ok row →
      pyContains p.play_by_play_string "Goal" = false →
      p.play_summary.loser_id = PyVal.null →
      (fillnaRow row).event_p2 = PyVal.int 0) ∧
    (∀ s : String, pyInt s = none → toNumeric (PyVal.str s) = PyVal.null) ∧
    (∀ p, pyLower (pyStrip p.play_by_play_string) = "penalty" →
      p.play_summary.details = none →
      (∃ n, computeElapsed p = .ok n) →
      parsePlay p = Except.error PyError.keyError) ∧
    (∀ p, p.play_actions = [] →
      (∃ n, computeElapsed p = .ok n) →
      (∃ ds, eventDescription p = .ok ds) →
      parsePlay p = Except.error PyError.indexError) ∧
    (∀ p e, computeElapsed p = .error e → parsePlay p = Except.error e) := by
  refine ⟨?_, ?_, ?_, ?_, ?_, ?_⟩
  · intro p row h hg hnull
    obtain ⟨-, -, h1, -, -⟩ := parsePlay_ok_spec p row h
    have : row.event_p1 = PyVal.null := by
      rw [h1]; simp [participants, hg, hnull]
    show fillPy row.event_p1 = PyVal.int 0
    rw [this]; rfl
  · intro p row h hg hnull
    obtain ⟨-, -, -, h2, -⟩ := parsePlay_ok_spec p row h
    have : row.event_p2 = PyVal.null := by
      rw [h2]; simp [participants, hg, hnull]
    show fillPy row.event_p2 = PyVal.int 0
    rw [this]; rfl
  · intro s hfail
    simp [toNumeric, hfail]
  · intro p hpen hdet ⟨n, hn⟩
    have hdesc : eventDescription p = .error .keyError := by
      simp [eventDescription, hpen, hdet]
    unfold parsePlay
    rw [hn, hdesc]
  · intro p hacts ⟨n, hn⟩ ⟨ds, hds⟩
    unfold parsePlay
    rw [hn, hds, hacts]
    rfl
  · exact parsePlay_elapsed_error

/-- Claim C5 witness: each conjunct at a concrete play. -/
theorem claim5_witness :
    (fillnaRow rowGoalNull).event_p1 = PyVal.int 0 ∧
    (fillnaRow rowFaceNull).event_p2 = PyVal.int 0 ∧
    toNumeric (PyVal.str "abc") = PyVal.null ∧
    parsePlay playPenaltyNoDetails = Except.error PyError.keyError ∧
    parsePlay playNoActions = Except.error PyError.indexError ∧
    parsePlay playBadClock = Except.error PyError.valueError :=
  ⟨claim5_amended_soft_and_hard_failures.1 playGoalNull rowGoalNull
     (by decide) (by decide) rfl,
   claim5_amended_soft_and_hard_failures.2.1 playFaceNull rowFaceNull
     (by decide) (by decide) rfl,
   claim5_amended_soft_and_hard_failures.2.2.1 "abc" (by decide),
   claim5_amended_soft_and_hard_failures.2.2.2.1 playPenaltyNoDetails
     (by decide) rfl ⟨323, by decide⟩,
   claim5_amended_soft_and_hard_failures.2.2.2.2.1 playNoActions rfl
     ⟨323, by decide⟩ ⟨"Faceoff won", by decide⟩,
   claim5_amended_soft_and_hard_failures.2.2.2.2.2 playBadClock
     PyError.valueError (by decide)⟩

/-- A derived full name always contains the separating space, so it is
never the empty string. -/
lemma full_name_ne_empty (p : Player) : full_name p ≠ "" := by
  unfold full_name
  intro h
  have hlen := congrArg String.length h
  rw [String.length_append, String.length_append] at hlen
  have h1 : (" " : String).length = 1 := rfl
  have h0 : ("" : String).length = 0 := rfl
  rw [h1, h0] at hlen
  omega

/-- Claim C6: `pull_player_names` left-joins the play rows against the
player table on the identifier column: every row survives the join with a
new name cell appended; a numeric identifier present in the player table's
`id` column resolves to its player's non-empty full name (and never to the
null name); an identifier absent from the table yields a null name without
dropping the row. -/
theorem claim6_left_join (prev : List (FinalRow × List (Option String)))
    (ptable : PlayerTable) (getId : FinalRow → PyVal)
    (rc : FinalRow × List (Option String)) (hrc : rc ∈ prev) :
    (∃ n, (rc.1, rc.2 ++ [n]) ∈ (pull_player_names prev ptable getId).1) ∧
    (∀ i : Int, getId rc.1 = PyVal.int i → i ∈ ptable.rows.map Player.id →
      (∃ p, p ∈ ptable.rows ∧ p.id = i ∧ full_name p ≠ "" ∧
        (rc.1, rc.2 ++ [some (full_name p)]) ∈
          (pull_player_names prev ptable getId).1) ∧
      (rc.1, rc.2 ++ [(none : Option String)]) ∉
        (pull_player_names prev ptable getId).1) ∧
    ((∀ i : Int, getId rc.1 = PyVal.int i → i ∉ ptable.rows.map Player.id) →
      (rc.1, rc.2 ++ [(none : Option String)]) ∈
        (pull_player_names prev ptable getId).1) := by
  refine ⟨?_, ?_, ?_⟩
  · cases hm : matchedNames ptable (getId rc.1) with
    | nil =>
      refine ⟨none, ?_⟩
      simp only [pull_player_names]
      exact List.mem_flatMap.mpr ⟨rc, hrc, by simp [hm]⟩
    | cons x xs =>
      refine ⟨some x, ?_⟩
      simp only [pull_player_names]
      refine List.mem_flatMap.mpr ⟨rc, hrc, ?_⟩
      rw [hm]
      exact List.mem_map_of_mem _ (List.mem_cons_self x xs)
  · intro i hgi himem
    obtain ⟨p, hp, hpid⟩ := List.mem_map.mp himem
    have hfil : p ∈ ptable.rows.filter (fun q => q.id == i) :=
      List.mem_filter.mpr ⟨hp, by simp [hpid]⟩
    have hfn : full_name p ∈ matchedNames ptable (getId rc.1) := by
      rw [hgi]
      exact List.mem_map_of_mem _ hfil
    constructor
    · cases hm : matchedNames ptable (getId rc.1) with
      | nil => rw [hm] at hfn; exact absurd hfn (List.not_mem_nil _)
      | cons x xs =>
        refine ⟨p, hp, hpid, full_name_ne_empty p, ?_⟩
        simp only [pull_player_names]
        refine List.mem_flatMap.mpr ⟨rc, hrc, ?_⟩
        rw [hm]
        rw [hm] at hfn
        exact List.mem_map_of_mem _ hfn
    · intro hbad
      simp only [pull_player_names] at hbad
      obtain ⟨a, ha, hain⟩ := List.mem_flatMap.mp hbad
      revert hain
      cases hma : matchedNames ptable (getId a.1) with
      | nil =>
        intro hain
        have heq := List.mem_singleton.mp hain
        have ha1 : rc.1 = a.1 := (Prod.mk.inj heq).1
        rw [ha1] at hfn
        rw [hma] at hfn
        exact absurd hfn (List.not_mem_nil _)
      | cons x xs =>
        intro hain
        obtain ⟨n, hn, heq⟩ := List.mem_map.mp hain
        have hsnd := congrArg Prod.snd heq
        have hlast := (List.append_inj' hsnd rfl).2
        exact Option.noConfusion (List.cons.inj hlast).1
  · intro habs
    have hm : matchedNames ptable (getId rc.1) = [] := by
      cases hv : getId rc.1 with
      | null => rfl
      | str s => rfl
      | int i =>
        have hni := habs i hv
        have hfil : ptable.rows.filter (fun q => q.id == i) = [] :=
          List.filter_eq_nil_iff.mpr
            (fun q hq hbeq => hni (List.mem_map.mpr ⟨q, hq, by simpa using hbeq⟩))
        simp [matchedNames, hfil]
    simp only [pull_player_names]
    exact List.mem_flatMap.mpr ⟨rc, hrc, by simp [hm]⟩

/-- Claim C6 witness: identifier 20 is in the roster and resolves to
`"Jane Doe"` (never to the null name); the goalie id 30 is not in the
roster and yields the null name while the row survives. -/
theorem claim6_witness :
    (finGoal, [(none : Option String)]) ∉
      (pull_player_names [(finGoal, [])] (rawPlayerTable rosterAB)
        (fun r => r.event_p1)).1 ∧
    (finFace, [(none : Option String)]) ∈
      (pull_player_names [(finFace, [])] (rawPlayerTable rosterAB)
        (fun r => r.away_goalie)).1 :=
  ⟨((claim6_left_join [(finGoal, [])] (rawPlayerTable rosterAB)
      (fun r => r.event_p1) (finGoal, []) (by decide)).2.1 20
      (by decide) (by decide)).2,
   (claim6_left_join [(finFace, [])] (rawPlayerTable rosterAB)
      (fun r => r.away_goalie) (finFace, []) (by decide)).2.2
     (by
       intro i h
       have h' : PyVal.int 30 = PyVal.int i := h
       cases h'
       decide)⟩

/-- Claim C7: the final play table is the pre-sort table sorted ascending
by `(period, seconds_elapsed, event_index)`: it is a permutation of the
pre-sort rows, pairwise ordered by the key triple, stable (any key-ordered
pair of rows keeps its relative order), and — given pairwise-distinct
`event_index` values — the unique key-sorted permutation. -/
theorem claim7_sort (d : PbpDict) (pre : List FinalRow)
    (h : preSortRows d = .ok pre) :
    convert_pbp_dict d =
      .ok (sortRows pre, rawPlayerTable d.roster_player, d.team_instance) ∧
    (sortRows pre).Perm pre ∧
    (sortRows pre).Pairwise (fun a b => rowLE a b = true) ∧
    (∀ a b, [a, b].Sublist pre → rowLE a b = true →
      [a, b].Sublist (sortRows pre)) ∧
    ((pre.map rowIndex).Nodup →
      ∀ l', l'.Perm pre → l'.Pairwise (fun a b => rowLE a b = true) →
        l' = sortRows pre) := by
  haveI : IsTotal FinalRow rowLEProp :=
    ⟨fun a b => (Bool.or_eq_true _ _).mp (rowLE_total a b)⟩
  haveI : IsTrans FinalRow rowLEProp := ⟨rowLE_trans⟩
  refine ⟨?_, List.perm_insertionSort rowLEProp pre, ?_, ?_, ?_⟩
  · unfold convert_pbp_dict
    rw [h]
  · exact List.sorted_insertionSort rowLEProp pre
  · intro a b hsub hab
    exact List.pair_sublist_insertionSort hab hsub
  · intro hnd l' hperm hpair
    exact sorted_perm_nodup_eq l' (sortRows pre)
      (hperm.trans (List.perm_insertionSort rowLEProp pre).symm) hpair
      (List.sorted_insertionSort rowLEProp pre)
      (((hperm.map rowIndex).nodup_iff).mpr hnd)

/-- Claim C7 witness: the two-play game sorts faceoff (323 s) before goal
(720 s), and that order is forced. -/
theorem claim7_witness :
    sortedTwoPlays = sortRows preTwoPlays :=
  (claim7_sort dictTwoPlays preTwoPlays (by decide)).2.2.2.2 (by decide)
    sortedTwoPlays (by decide) (by decide)

/-- Claim C8: with a two-row team table, every output play row carries
row 0's name/id as the home team and row 1's as the away team. -/
theorem claim8_team_broadcast (d : PbpDict) (out : List FinalRow)
    (pt : PlayerTable) (ts : List Team) (t0 t1 : Team)
    (hteams : d.team_instance = [t0, t1])
    (h : convert_pbp_dict d = .ok (out, pt, ts)) :
    ∀ r ∈ out, r.home_team = t0.name ∧ r.home_team_id = t0.team_id ∧
      r.away_team = t1.name ∧ r.away_team_id = t1.team_id := by
  unfold convert_pbp_dict at h
  cases hpre : preSortRows d with
  | error e => rw [hpre] at h; exact absurd h (by simp)
  | ok pre =>
    rw [hpre] at h
    have hout : out = sortRows pre := ((Prod.mk.inj (Except.ok.inj h)).1).symm
    intro r hr
    rw [hout] at hr
    unfold sortRows at hr
    have hrpre : r ∈ pre := (List.mem_insertionSort rowLEProp).mp hr
    unfold preSortRows at hpre
    cases hpp : parsePlays d.plays with
    | error e => rw [hpp] at hpre; exact absurd hpre (by simp)
    | ok rows =>
      rw [hpp] at hpre
      have hpre2 : (match addTeams (rows.map fillnaRow) d.team_instance with
        | Except.error e => Except.error e
        | Except.ok wt => Except.ok (wt.map coerceIds)) = Except.ok pre := hpre
      cases hat : addTeams (rows.map fillnaRow) d.team_instance with
      | error e => rw [hat] at hpre2; exact absurd hpre2 (by simp)
      | ok wt =>
        rw [hat] at hpre2
        have hpre' : pre = wt.map coerceIds := (Except.ok.inj hpre2).symm
        rw [hteams] at hat
        unfold addTeams at hat
        simp only [List.getElem?_cons_zero, List.getElem?_cons_succ] at hat
        have hwt : wt = (rows.map fillnaRow).map (fun r0 =>
            ({ toEventRow := r0, home_team := t0.name, home_team_id := t0.team_id,
               away_team := t1.name, away_team_id := t1.team_id } : FinalRow)) :=
          (Except.ok.inj hat).symm
        rw [hpre'] at hrpre
        obtain ⟨r1, hr1, hr1eq⟩ := List.mem_map.mp hrpre
        rw [hwt] at hr1
        obtain ⟨r0, hr0, hr0eq⟩ := List.mem_map.mp hr1
        rw [← hr1eq, ← hr0eq]
        exact ⟨rfl, rfl, rfl, rfl⟩

/-- Claim C8 witness: in the two-play game the faceoff row carries
`teamHome` (row 0) as home and `teamAway` (row 1) as away. -/
theorem claim8_witness :
    finFace.home_team = teamHome.name ∧
    finFace.home_team_id = teamHome.team_id ∧
    finFace.away_team = teamAway.name ∧
    finFace.away_team_id = teamAway.team_id :=
  claim8_team_broadcast dictTwoPlays (sortRows preTwoPlays)
    (rawPlayerTable dictTwoPlays.roster_player) dictTwoPlays.team_instance
    teamHome teamAway rfl (by decide) finFace (by decide)

/-- Claim C9 counterexample: for a concrete record, the player table that
`main` writes has columns `id, first_name, last_name, full_name` — not the
raw source columns: the enrichment loop's in-place
`player_df['full_name'] = ...` mutation is visible in the written file. -/
theorem claim9_counterexample :
    (mainWrittenPlayerTable dictNoPlays).map playerTableColumns ≠
      Except.ok (playerTableColumns (rawPlayerTable dictNoPlays.roster_player)) := by
  decide

/-- Claim C9 amended: the written player table consists of the raw player
rows plus one added derived column `full_name` (trimmed first name, a
space, trimmed last name), because `pull_player_names` mutates the shared
player table before `main` writes it. -/
theorem claim9_amended_full_name_column (d : PbpDict) (pbp : List FinalRow)
    (pt : PlayerTable) (ts : List Team)
    (h : convert_pbp_dict d = .ok (pbp, pt, ts)) :
    mainWrittenPlayerTable d =
      .ok { rows := d.roster_player, hasFullName := true } ∧
    playerTableColumns { rows := d.roster_player, hasFullName := true } =
      playerTableColumns (rawPlayerTable d.roster_player) ++ ["full_name"] := by
  have hpt : pt = rawPlayerTable d.roster_player := by
    unfold convert_pbp_dict at h
    cases hpre : preSortRows d with
    | error e => rw [hpre] at h; exact absurd h (by simp)
    | ok pre =>
      rw [hpre] at h
      exact ((Prod.mk.inj (Prod.mk.inj (Except.ok.inj h)).2).1).symm
  constructor
  · unfold mainWrittenPlayerTable
    rw [h, hpt]
    simp [enrichAll, player_id_columns, pull_player_names, rawPlayerTable]
  · simp [playerTableColumns, rawPlayerTable]

/-- Claim C9 witness: the concrete no-plays record. -/
theorem claim9_witness :
    mainWrittenPlayerTable dictNoPlays =
      .ok { rows := dictNoPlays.roster_player, hasFullName := true } ∧
    playerTableColumns { rows := dictNoPlays.roster_player, hasFullName := true } =
      playerTableColumns (rawPlayerTable dictNoPlays.roster_player) ++ ["full_name"] :=
  claim9_amended_full_name_column dictNoPlays []
    (rawPlayerTable dictNoPlays.roster_player) dictNoPlays.team_instance
    (by decide)

end NwhlScraper

